import Mathlib

/-!
Shallow embedding of the APEX traffic-signal decision engine
(`src/server/decision_engine.py` and `src/server/models.py`).

Numeric fields carried as floats in the source are modelled as rationals
(`ℚ`); the softmax step, which applies the exponential function, is
modelled over the reals (`ℝ`) with `Real.exp`.  Python dictionaries keyed
by lane direction are modelled as association lists, preserving the fixed
iteration order.  The one random draw (`np.random.choice` in
`_select_lane`) is abstracted as a caller-supplied selection function
returning an `Option`; the dictionary lookups of the source are modelled
with `List.lookup`, and `decide` propagates their possible failure through
`Option`.
-/

namespace Apex

/-- Lane directions in the intersection (`models.LaneDirection`). -/
inductive LaneDirection where
  | North
  | South
  | East
  | West
deriving DecidableEq

/-- Vehicle count by type, from YOLO detection (`models.VehicleCount`). -/
structure VehicleCount where
  car : ℚ
  bike : ℚ
  truck : ℚ
  bus : ℚ
  emergency : ℚ
  pedestrians : ℚ
deriving DecidableEq

/-- Vision layer output for one lane (`models.VisionOutput`). -/
structure VisionOutput where
  vehicleCountByType : VehicleCount
  avgSpeed : ℚ
  laneOccupancy : ℚ
  ambulanceDetected : Bool
  rainDetected : Bool
  confidenceScore : ℚ
deriving DecidableEq

/-- Downstream congestion data from the maps layer (`models.DownstreamData`). -/
structure DownstreamData where
  avgSpeed : ℚ
  congestionIndex : ℚ
  ttl : ℤ
deriving DecidableEq

/-- Complete state of a single lane (`models.LaneState`). -/
structure LaneState where
  direction : LaneDirection
  vision : VisionOutput
  downstream : Option DownstreamData
  waitTime : ℚ
  lastGreenTime : ℚ
deriving DecidableEq

/-- Explainability trace for a decision (`models.DecisionReason`). -/
structure DecisionReason where
  emergency : Bool
  maxWaitViolation : Bool
  downstreamPenalty : ℚ
  recentGreenDecay : ℚ
  softmaxProbability : ℝ
  localTrafficScore : ℚ

/-- Decision engine output (`models.SignalDecision`). -/
structure SignalDecision where
  selectedLane : LaneDirection
  greenDuration : ℚ
  decisionConfidence : ℝ
  reasonTrace : DecisionReason
  timestamp : ℚ

/-! Engine constants from `DecisionEngine.__init__`. -/

/-- Max wait before a forced green, seconds. -/
def MAX_WAIT_TIME : ℚ := 120

/-- Minimum green duration, seconds. -/
def MIN_GREEN : ℚ := 5

/-- Maximum green duration, seconds. -/
def MAX_GREEN : ℚ := 60

/-- Recent-green decay window, seconds. -/
def RECENT_GREEN_DECAY_WINDOW : ℚ := 30

/-- Softmax temperature τ. -/
def TEMPERATURE : ℚ := 7/10

/-- Vehicle weight: car. -/
def WEIGHT_CAR : ℚ := 1

/-- Vehicle weight: bike. -/
def WEIGHT_BIKE : ℚ := 3/10

/-- Vehicle weight: truck. -/
def WEIGHT_TRUCK : ℚ := 3/2

/-- Vehicle weight: bus. -/
def WEIGHT_BUS : ℚ := 3/2

/-- Vehicle weight: emergency vehicle. -/
def WEIGHT_EMERGENCY : ℚ := 10

/-- Vehicle weight: pedestrians. -/
def WEIGHT_PEDESTRIANS : ℚ := 1/2

/-- Rain adjustment multiplier for bikes. -/
def RAIN_BIKE_MULTIPLIER : ℚ := 2

/-- Emergency check (`DecisionEngine._check_emergency`): first lane, in
iteration order, whose `ambulanceDetected` flag is set.  The source
returns the direction and re-indexes the dictionary; since keys are
unique there, we return the direction together with its lane state. -/
def _check_emergency (lanes : List (LaneDirection × LaneState)) :
    Option (LaneDirection × LaneState) :=
  lanes.find? fun p => p.2.vision.ambulanceDetected

/-- Max-wait check (`DecisionEngine._check_max_wait`): first lane, in
iteration order, whose `waitTime` strictly exceeds `MAX_WAIT_TIME`. -/
def _check_max_wait (lanes : List (LaneDirection × LaneState)) :
    Option (LaneDirection × LaneState) :=
  lanes.find? fun p => decide (p.2.waitTime > MAX_WAIT_TIME)

/-- Local traffic score (`DecisionEngine._calculate_local_traffic_score`):
weighted vehicle sum, rain adjustment for bikes, then speed and occupancy
multipliers. -/
def _calculate_local_traffic_score (lane : LaneState) : ℚ :=
  let vehicles := lane.vision.vehicleCountByType
  let score :=
    vehicles.car * WEIGHT_CAR +
    vehicles.bike * WEIGHT_BIKE +
    vehicles.truck * WEIGHT_TRUCK +
    vehicles.bus * WEIGHT_BUS +
    vehicles.emergency * WEIGHT_EMERGENCY +
    vehicles.pedestrians * WEIGHT_PEDESTRIANS
  let score :=
    if lane.vision.rainDetected then
      score + vehicles.bike * WEIGHT_BIKE * (RAIN_BIKE_MULTIPLIER - 1)
    else score
  let speed_factor := max 0 (1 - lane.vision.avgSpeed / 60)
  let score := score * (1 + speed_factor)
  score * (1 + lane.vision.laneOccupancy)

/-- Downstream priority (`DecisionEngine._calculate_downstream_priority`):
neutral 1.0 without downstream data, otherwise `max 0.1 (speed / 60)`. -/
def _calculate_downstream_priority (lane : LaneState) : ℚ :=
  match lane.downstream with
  | none => 1
  | some downstream => max (1/10) (downstream.avgSpeed / 60)

/-- Net priorities (`DecisionEngine._calculate_net_priorities`):
`netPriority = localTrafficScore × downstreamPriority²` per lane. -/
def _calculate_net_priorities (lanes : List (LaneDirection × LaneState)) :
    List (LaneDirection × ℚ) :=
  lanes.map fun p =>
    (p.1, _calculate_local_traffic_score p.2 * _calculate_downstream_priority p.2 ^ 2)

/-- Decay factor applied to a recently served lane, from the body of
`DecisionEngine._apply_recent_green_decay`. -/
def decayFactor (now : ℚ) (lane : LaneState) : ℚ :=
  let time_since_green := now - lane.lastGreenTime
  if time_since_green < RECENT_GREEN_DECAY_WINDOW then
    time_since_green / RECENT_GREEN_DECAY_WINDOW
  else 1

/-- Recent-green decay (`DecisionEngine._apply_recent_green_decay`):
multiply each lane's priority by its decay factor.  The source indexes
`lanes[direction]` for each priority entry; the lookup's possible failure
is propagated through `Option`. -/
def _apply_recent_green_decay (now : ℚ) (lanes : List (LaneDirection × LaneState)) :
    List (LaneDirection × ℚ) → Option (List (LaneDirection × ℚ))
  | [] => some []
  | p :: rest =>
    match List.lookup p.1 lanes, _apply_recent_green_decay now lanes rest with
    | some lane, some rest' => some ((p.1, p.2 * decayFactor now lane) :: rest')
    | _, _ => none

/-- Maximum of a list of reals (`np.max` over a nonempty array). -/
noncomputable def listMax : List ℝ → ℝ
  | [] => 0
  | x :: xs => xs.foldl max x

/-- Softmax (`DecisionEngine._softmax`): add epsilon 1e-6, scale by the
temperature, exponentiate with max-subtraction, normalize. -/
noncomputable def _softmax (priorities : List (LaneDirection × ℚ))
    (temperature : ℚ) : List (LaneDirection × ℝ) :=
  let scaled : List ℝ := priorities.map fun p =>
    (((p.2 + 1/1000000) / temperature : ℚ) : ℝ)
  let m : ℝ := listMax scaled
  let exp_values : List ℝ := scaled.map fun v => Real.exp (v - m)
  let s : ℝ := exp_values.sum
  List.zip (priorities.map Prod.fst) (exp_values.map fun e => e / s)

/-- Green duration (`DecisionEngine._calculate_green_duration`):
interpolate between `MIN_GREEN` and `MAX_GREEN` by the normalized local
score, scale by detection confidence, clamp. -/
def _calculate_green_duration (lane : LaneState) : ℚ :=
  let local_score := _calculate_local_traffic_score lane
  let normalized := min (local_score / 50) 1
  let duration := MIN_GREEN + (MAX_GREEN - MIN_GREEN) * normalized
  let duration := duration * lane.vision.confidenceScore
  max MIN_GREEN (min MAX_GREEN duration)

/-- Normal-path decision (`DecisionEngine._create_decision`), applied to
the selected lane's state and softmax probability, which the source
obtains by dictionary lookups performed in `decide` below. -/
def _create_decision (lane : LaneDirection) (duration : ℚ)
    (laneState : LaneState) (probability : ℝ) (now : ℚ) : SignalDecision :=
  { selectedLane := lane
    greenDuration := duration
    decisionConfidence := probability
    reasonTrace :=
      { emergency := false
        maxWaitViolation := false
        downstreamPenalty := 1 - _calculate_downstream_priority laneState
        recentGreenDecay := 1
        softmaxProbability := probability
        localTrafficScore := _calculate_local_traffic_score laneState }
    timestamp := now }

/-- Emergency decision (`DecisionEngine._create_emergency_decision`). -/
def _create_emergency_decision (lane : LaneDirection) (now : ℚ) : SignalDecision :=
  { selectedLane := lane
    greenDuration := MAX_GREEN
    decisionConfidence := 1
    reasonTrace :=
      { emergency := true
        maxWaitViolation := false
        downstreamPenalty := 0
        recentGreenDecay := 1
        softmaxProbability := 1
        localTrafficScore := 999 }
    timestamp := now }

/-- Forced decision (`DecisionEngine._create_forced_decision`).  The
source receives a `reason_type` string and sets `maxWaitViolation` to
the comparison `reason_type == "max_wait_violation"`; that boolean is
passed here directly. -/
def _create_forced_decision (lane : LaneDirection) (laneState : LaneState)
    (maxWait : Bool) (now : ℚ) : SignalDecision :=
  { selectedLane := lane
    greenDuration := MIN_GREEN
    decisionConfidence := 1
    reasonTrace :=
      { emergency := false
        maxWaitViolation := maxWait
        downstreamPenalty := 0
        recentGreenDecay := 1
        softmaxProbability := 1
        localTrafficScore := _calculate_local_traffic_score laneState }
    timestamp := now }

/-- Main decision pipeline (`DecisionEngine.decide`).  `sel` abstracts
the categorical random draw of `_select_lane` (`np.random.choice`);
`now` stands for `time.time()`.  Dictionary lookups and the draw are the
only fallible steps, propagated through `Option`. -/
noncomputable def decide (sel : List (LaneDirection × ℝ) → Option LaneDirection)
    (now : ℚ) (lanes : List (LaneDirection × LaneState)) : Option SignalDecision :=
  match _check_emergency lanes with
  | some lane => some (_create_emergency_decision lane.1 now)
  | none =>
    match _check_max_wait lanes with
    | some lane => some (_create_forced_decision lane.1 lane.2 true now)
    | none =>
      let priorities := _calculate_net_priorities lanes
      match _apply_recent_green_decay now lanes priorities with
      | none => none
      | some adjusted =>
        let probabilities := _softmax adjusted TEMPERATURE
        match sel probabilities with
        | none => none
        | some selected =>
          match List.lookup selected lanes with
          | none => none
          | some laneState =>
            match List.lookup selected probabilities with
            | none => none
            | some probability =>
              some (_create_decision selected
                (_calculate_green_duration laneState) laneState probability now)

/-! Spec-side formulas, written from the specification's words, for the
refinement comparisons. -/

/-- Green duration as the specification words it: clamp(confidence ×
(MIN_GREEN + (MAX_GREEN − MIN_GREEN) × min(localScore/50, 1)),
MIN_GREEN, MAX_GREEN). -/
def greenDurationSpec (lane : LaneState) : ℚ :=
  max MIN_GREEN (min MAX_GREEN
    (lane.vision.confidenceScore *
      (MIN_GREEN + (MAX_GREEN - MIN_GREEN) *
        min (_calculate_local_traffic_score lane / 50) 1)))

/-- Local score as the specification words it: weighted vehicle sum plus
the rain bike adjustment, times (1 + speedFactor), times
(1 + laneOccupancy). -/
def localScoreSpec (lane : LaneState) : ℚ :=
  let v := lane.vision.vehicleCountByType
  (v.car * 1 + v.bike * (3/10) + v.truck * (3/2) + v.bus * (3/2) +
      v.emergency * 10 + v.pedestrians * (1/2) +
      (if lane.vision.rainDetected then v.bike * (3/10) * (2 - 1) else 0)) *
    (1 + max 0 (1 - lane.vision.avgSpeed / 60)) *
    (1 + lane.vision.laneOccupancy)

/-! Shared concrete sample data for witnesses and counterexamples. -/

/-- Vision output of an empty, dry lane. -/
def emptyVision : VisionOutput :=
  { vehicleCountByType :=
      { car := 0, bike := 0, truck := 0, bus := 0, emergency := 0, pedestrians := 0 }
    avgSpeed := 50
    laneOccupancy := 0
    ambulanceDetected := false
    rainDetected := false
    confidenceScore := 95/100 }

/-- Empty lane with fast downstream flow (downstream avgSpeed 100). -/
def fastDownstreamLane : LaneState :=
  { direction := LaneDirection.North
    vision := emptyVision
    downstream := some { avgSpeed := 100, congestionIndex := 0, ttl := 60 }
    waitTime := 0
    lastGreenTime := 0 }

/-- Stopped, fully occupied lane with ten bikes, no rain. -/
def dryBikeLane : LaneState :=
  { direction := LaneDirection.East
    vision :=
      { vehicleCountByType :=
          { car := 0, bike := 10, truck := 0, bus := 0, emergency := 0, pedestrians := 0 }
        avgSpeed := 0
        laneOccupancy := 1
        ambulanceDetected := false
        rainDetected := false
        confidenceScore := 1 }
    downstream := none
    waitTime := 0
    lastGreenTime := 0 }

/-- The same lane as `dryBikeLane` with rain detected. -/
def rainyBikeLane : LaneState :=
  { dryBikeLane with vision := { dryBikeLane.vision with rainDetected := true } }

/-- Helper: the source's local-score computation coincides with the
specification's formula. -/
theorem local_score_eq_spec (lane : LaneState) :
    _calculate_local_traffic_score lane = localScoreSpec lane := by
  unfold _calculate_local_traffic_score localScoreSpec
  unfold WEIGHT_CAR WEIGHT_BIKE WEIGHT_TRUCK WEIGHT_BUS WEIGHT_EMERGENCY
    WEIGHT_PEDESTRIANS RAIN_BIKE_MULTIPLIER
  cases h : lane.vision.rainDetected <;> simp [h]

/-- C4: every non-override green duration equals the clamped,
confidence-scaled interpolation of the normalized local score, and lies
in [5, 60]. -/
theorem green_duration_correct (lane : LaneState) :
    _calculate_green_duration lane = greenDurationSpec lane ∧
    5 ≤ _calculate_green_duration lane ∧ _calculate_green_duration lane ≤ 60 := by
  unfold _calculate_green_duration greenDurationSpec MIN_GREEN MAX_GREEN
  refine ⟨by rw [mul_comm], le_max_left _ _, max_le (by norm_num) (min_le_left _ _)⟩

/-- C5: the local traffic score equals the specification's weighted-sum
formula; it is non-negative for validated inputs, and zero when every
vehicle count is zero. -/
theorem local_score_correct (lane : LaneState)
    (hcar : 0 ≤ lane.vision.vehicleCountByType.car)
    (hbike : 0 ≤ lane.vision.vehicleCountByType.bike)
    (htruck : 0 ≤ lane.vision.vehicleCountByType.truck)
    (hbus : 0 ≤ lane.vision.vehicleCountByType.bus)
    (hemergency : 0 ≤ lane.vision.vehicleCountByType.emergency)
    (hped : 0 ≤ lane.vision.vehicleCountByType.pedestrians)
    (hocc : 0 ≤ lane.vision.laneOccupancy) :
    _calculate_local_traffic_score lane = localScoreSpec lane ∧
    0 ≤ _calculate_local_traffic_score lane ∧
    (lane.vision.vehicleCountByType =
        { car := 0, bike := 0, truck := 0, bus := 0, emergency := 0, pedestrians := 0 } →
      _calculate_local_traffic_score lane = 0) := by
  refine ⟨local_score_eq_spec lane, ?_, ?_⟩
  · unfold _calculate_local_traffic_score WEIGHT_CAR WEIGHT_BIKE WEIGHT_TRUCK WEIGHT_BUS WEIGHT_EMERGENCY WEIGHT_PEDESTRIANS RAIN_BIKE_MULTIPLIER
    have hmax : (0:ℚ) ≤ max 0 (1 - lane.vision.avgSpeed / 60) := le_max_left _ _
    cases h : lane.vision.rainDetected <;> simp only [h, if_true, if_false,
      Bool.false_eq_true, ite_false, ite_true] <;>
    · apply mul_nonneg (mul_nonneg (by positivity) (by linarith)) (by linarith)
  · intro hz
    unfold _calculate_local_traffic_score
    rw [hz]
    cases h : lane.vision.rainDetected <;> simp [h]

/-- C6 counterexample: a downstream average speed of 100, inside the
validated range [0, 100], yields priority factor 5/3, which is outside
the claimed interval [0.1, 1.0]. -/
theorem downstream_priority_above_one :
    _calculate_downstream_priority fastDownstreamLane = 5/3 ∧
    ¬ _calculate_downstream_priority fastDownstreamLane ≤ 1 := by
  unfold _calculate_downstream_priority fastDownstreamLane
  norm_num [max_def]

/-- C6 amended: the factor is the neutral 1.0 without downstream data;
with downstream avgSpeed in the validated range [0, 100] it lies in
[0.1, 5/3], and it lies in [0.1, 1.0] whenever the downstream average
speed is at most 60. -/
theorem downstream_priority_range (lane : LaneState)
    (h : ∀ d ∈ lane.downstream, 0 ≤ d.avgSpeed ∧ d.avgSpeed ≤ 100) :
    (lane.downstream = none → _calculate_downstream_priority lane = 1) ∧
    (∀ d ∈ lane.downstream,
      _calculate_downstream_priority lane = max (1/10) (d.avgSpeed / 60)) ∧
    1/10 ≤ _calculate_downstream_priority lane ∧
    _calculate_downstream_priority lane ≤ 5/3 ∧
    (∀ d ∈ lane.downstream, d.avgSpeed ≤ 60 →
      _calculate_downstream_priority lane ≤ 1) := by
  cases hd : lane.downstream with
  | none =>
    unfold _calculate_downstream_priority
    rw [hd]
    norm_num
    intro d' hd'
    cases hd'
  | some d =>
    obtain ⟨h0, h100⟩ := h d (by simp [hd])
    unfold _calculate_downstream_priority
    rw [hd]
    refine ⟨by simp, ?_, le_max_left _ _, max_le (by norm_num) (by linarith), ?_⟩
    · intro d' hd'
      simp at hd'
      subst hd'
      rfl
    · intro d' hd' hle
      simp at hd'
      subst hd'
      exact max_le (by norm_num) (by linarith)

/-- C6 witness: the amended range theorem applied to the concrete lane
with downstream avgSpeed 100. -/
theorem downstream_priority_range_witness :
    (∀ d ∈ fastDownstreamLane.downstream, 0 ≤ d.avgSpeed ∧ d.avgSpeed ≤ 100) ∧
    ((fastDownstreamLane.downstream = none →
        _calculate_downstream_priority fastDownstreamLane = 1) ∧
      (∀ d ∈ fastDownstreamLane.downstream,
        _calculate_downstream_priority fastDownstreamLane = max (1/10) (d.avgSpeed / 60)) ∧
      1/10 ≤ _calculate_downstream_priority fastDownstreamLane ∧
      _calculate_downstream_priority fastDownstreamLane ≤ 5/3 ∧
      (∀ d ∈ fastDownstreamLane.downstream, d.avgSpeed ≤ 60 →
        _calculate_downstream_priority fastDownstreamLane ≤ 1)) :=
  ⟨by intro d hd; cases hd; exact ⟨by norm_num, by norm_num⟩,
    downstream_priority_range fastDownstreamLane
      (by intro d hd; cases hd; exact ⟨by norm_num, by norm_num⟩)⟩

/-- Empty lane used as a concrete well-formed input. -/
def emptyLane : LaneState :=
  { direction := LaneDirection.South
    vision := emptyVision
    downstream := none
    waitTime := 0
    lastGreenTime := 0 }

/-- C5 witness: the local-score theorem applied to the all-zero lane. -/
theorem local_score_correct_witness :
    (0 ≤ emptyLane.vision.vehicleCountByType.car ∧
      0 ≤ emptyLane.vision.vehicleCountByType.bike ∧
      0 ≤ emptyLane.vision.vehicleCountByType.truck ∧
      0 ≤ emptyLane.vision.vehicleCountByType.bus ∧
      0 ≤ emptyLane.vision.vehicleCountByType.emergency ∧
      0 ≤ emptyLane.vision.vehicleCountByType.pedestrians ∧
      0 ≤ emptyLane.vision.laneOccupancy) ∧
    (_calculate_local_traffic_score emptyLane = localScoreSpec emptyLane ∧
      0 ≤ _calculate_local_traffic_score emptyLane ∧
      (emptyLane.vision.vehicleCountByType =
          { car := 0, bike := 0, truck := 0, bus := 0, emergency := 0, pedestrians := 0 } →
        _calculate_local_traffic_score emptyLane = 0)) :=
  ⟨by norm_num [emptyLane, emptyVision],
    local_score_correct emptyLane (by norm_num [emptyLane, emptyVision])
      (by norm_num [emptyLane, emptyVision]) (by norm_num [emptyLane, emptyVision])
      (by norm_num [emptyLane, emptyVision]) (by norm_num [emptyLane, emptyVision])
      (by norm_num [emptyLane, emptyVision]) (by norm_num [emptyLane, emptyVision])⟩

/-- C7 counterexample: for the ten-bike lane stopped at full occupancy,
turning rain on raises the local score by 12, not by
bikeCount × 0.3 × 1.0 = 3. -/
theorem rain_increase_not_bike_weight :
    _calculate_local_traffic_score rainyBikeLane -
        _calculate_local_traffic_score dryBikeLane = 12 ∧
    rainyBikeLane.vision.vehicleCountByType.bike * (3/10) * 1 = 3 ∧
    (12 : ℚ) ≠ 3 := by
  norm_num [_calculate_local_traffic_score, rainyBikeLane, dryBikeLane,
    WEIGHT_CAR, WEIGHT_BIKE, WEIGHT_TRUCK, WEIGHT_BUS, WEIGHT_EMERGENCY,
    WEIGHT_PEDESTRIANS, RAIN_BIKE_MULTIPLIER, max_def]

/-- C7 amended: with bikeCount > 0 and validated occupancy, detecting
rain strictly raises the local score, and the increase equals
bikeCount × 0.3 × (rainBikeMultiplier − 1) × (1 + speedFactor) ×
(1 + laneOccupancy) — the flat bikeCount × 0.3 only when the speed and
occupancy multipliers are both neutral. -/
theorem rain_bike_score_increase (lane : LaneState)
    (hocc : 0 ≤ lane.vision.laneOccupancy)
    (hbike : 0 < lane.vision.vehicleCountByType.bike) :
    _calculate_local_traffic_score
        { lane with vision := { lane.vision with rainDetected := true } } -
      _calculate_local_traffic_score
        { lane with vision := { lane.vision with rainDetected := false } } =
      lane.vision.vehicleCountByType.bike * (3/10) * (2 - 1) *
        ((1 + max 0 (1 - lane.vision.avgSpeed / 60)) *
          (1 + lane.vision.laneOccupancy)) ∧
    _calculate_local_traffic_score
        { lane with vision := { lane.vision with rainDetected := false } } <
      _calculate_local_traffic_score
        { lane with vision := { lane.vision with rainDetected := true } } := by
  have hmax : (0:ℚ) ≤ max 0 (1 - lane.vision.avgSpeed / 60) := le_max_left _ _
  have heq : _calculate_local_traffic_score
        { lane with vision := { lane.vision with rainDetected := true } } -
      _calculate_local_traffic_score
        { lane with vision := { lane.vision with rainDetected := false } } =
      lane.vision.vehicleCountByType.bike * (3/10) * (2 - 1) *
        ((1 + max 0 (1 - lane.vision.avgSpeed / 60)) *
          (1 + lane.vision.laneOccupancy)) := by
    simp only [_calculate_local_traffic_score, WEIGHT_CAR, WEIGHT_BIKE,
      WEIGHT_TRUCK, WEIGHT_BUS, WEIGHT_EMERGENCY, WEIGHT_PEDESTRIANS,
      RAIN_BIKE_MULTIPLIER]
    simp
    ring
  refine ⟨heq, ?_⟩
  rw [← sub_pos, heq]
  have h1 : (0:ℚ) < 1 + max 0 (1 - lane.vision.avgSpeed / 60) := by linarith
  have h2 : (0:ℚ) < 1 + lane.vision.laneOccupancy := by linarith
  have h3 : (0:ℚ) < lane.vision.vehicleCountByType.bike * (3/10) * (2 - 1) := by
    nlinarith
  exact mul_pos h3 (mul_pos h1 h2)

/-- C7 witness: the amended rain-increase theorem applied to the
concrete ten-bike lane. -/
theorem rain_bike_score_increase_witness :
    (0 ≤ dryBikeLane.vision.laneOccupancy ∧
      0 < dryBikeLane.vision.vehicleCountByType.bike) ∧
    (_calculate_local_traffic_score
        { dryBikeLane with vision := { dryBikeLane.vision with rainDetected := true } } -
      _calculate_local_traffic_score
        { dryBikeLane with vision := { dryBikeLane.vision with rainDetected := false } } =
      dryBikeLane.vision.vehicleCountByType.bike * (3/10) * (2 - 1) *
        ((1 + max 0 (1 - dryBikeLane.vision.avgSpeed / 60)) *
          (1 + dryBikeLane.vision.laneOccupancy)) ∧
    _calculate_local_traffic_score
        { dryBikeLane with vision := { dryBikeLane.vision with rainDetected := false } } <
      _calculate_local_traffic_score
        { dryBikeLane with vision := { dryBikeLane.vision with rainDetected := true } }) :=
  ⟨by norm_num [dryBikeLane],
    rain_bike_score_increase dryBikeLane (by norm_num [dryBikeLane])
      (by norm_num [dryBikeLane])⟩

/-- Association-list lookup finds the stored value when keys are
distinct, as a Python dictionary does. -/
theorem lookup_of_mem_of_nodup {α β : Type} [DecidableEq α]
    {entries : List (α × β)} (hnodup : (entries.map Prod.fst).Nodup)
    {k : α} {v : β} (hmem : (k, v) ∈ entries) :
    List.lookup k entries = some v := by
  induction entries with
  | nil => cases hmem
  | cons p rest ih =>
    simp only [List.map_cons, List.nodup_cons] at hnodup
    rcases List.mem_cons.mp hmem with h | h
    · rw [← h]
      simp [List.lookup]
    · have hne : k ≠ p.1 := by
        intro he
        exact hnodup.1 (he ▸ List.mem_map_of_mem Prod.fst h)
      have hb : (k == p.1) = false := beq_eq_false_iff_ne.mpr hne
      simp only [List.lookup, hb]
      exact ih hnodup.2 h

/-- Association-list lookup succeeds on any present key. -/
theorem lookup_isSome_of_mem_keys {α β : Type} [DecidableEq α]
    {entries : List (α × β)} {k : α} (hmem : k ∈ entries.map Prod.fst) :
    (List.lookup k entries).isSome := by
  induction entries with
  | nil => cases hmem
  | cons p rest ih =>
    simp only [List.map_cons, List.mem_cons] at hmem
    by_cases he : k = p.1
    · simp [List.lookup, he]
    · have hb : (k == p.1) = false := beq_eq_false_iff_ne.mpr he
      simp only [List.lookup, hb]
      exact ih (hmem.resolve_left he)

/-- The decay factor of the source's if-then-else equals
min 1 ((now − lastGreenTime) / 30). -/
theorem decayFactor_eq_min (now : ℚ) (lane : LaneState) :
    decayFactor now lane = min 1 ((now - lane.lastGreenTime) / 30) := by
  simp only [decayFactor, RECENT_GREEN_DECAY_WINDOW]
  split_ifs with h
  · rw [min_eq_right]
    rw [div_le_one (by norm_num : (0:ℚ) < 30)]
    linarith
  · rw [min_eq_left]
    rw [le_div_iff₀ (by norm_num : (0:ℚ) < 30)]
    linarith

/-- Applying the recent-green decay to per-lane values computed from the
lanes themselves succeeds and multiplies each value by that lane's decay
factor. -/
theorem apply_decay_on_image (now : ℚ)
    (lanes sub : List (LaneDirection × LaneState)) (g : LaneState → ℚ)
    (h : ∀ p ∈ sub, List.lookup p.1 lanes = some p.2) :
    _apply_recent_green_decay now lanes (sub.map fun p => (p.1, g p.2)) =
      some (sub.map fun p => (p.1, g p.2 * decayFactor now p.2)) := by
  induction sub with
  | nil => rfl
  | cons p rest ih =>
    have hp := h p (List.mem_cons_self p rest)
    have hrest := ih fun q hq => h q (List.mem_cons_of_mem p hq)
    simp only [List.map_cons, _apply_recent_green_decay]
    rw [hp, hrest]

/-- C8: the priorities entering the softmax are exactly
localScore × downstreamFactor² × min 1 ((now − lastGreenTime)/30) per
lane; a lane last served at the current instant is fully suppressed, and
one served at least 30 s ago competes at its full net priority. -/
theorem adjusted_priority_correct (now : ℚ)
    (lanes : List (LaneDirection × LaneState))
    (hnodup : (lanes.map Prod.fst).Nodup) :
    _apply_recent_green_decay now lanes (_calculate_net_priorities lanes) =
      some (lanes.map fun p => (p.1,
        _calculate_local_traffic_score p.2 * _calculate_downstream_priority p.2 ^ 2 *
          min 1 ((now - p.2.lastGreenTime) / 30))) ∧
    (∀ l : LaneState, l.lastGreenTime = now →
      _calculate_local_traffic_score l * _calculate_downstream_priority l ^ 2 *
        min 1 ((now - l.lastGreenTime) / 30) = 0) ∧
    (∀ l : LaneState, 30 ≤ now - l.lastGreenTime →
      _calculate_local_traffic_score l * _calculate_downstream_priority l ^ 2 *
        min 1 ((now - l.lastGreenTime) / 30) =
        _calculate_local_traffic_score l * _calculate_downstream_priority l ^ 2) := by
  refine ⟨?_, ?_, ?_⟩
  · have h : ∀ p ∈ lanes, List.lookup p.1 lanes = some p.2 := by
      intro p hp
      exact lookup_of_mem_of_nodup hnodup hp
    have := apply_decay_on_image now lanes lanes
      (fun l => _calculate_local_traffic_score l * _calculate_downstream_priority l ^ 2) h
    rw [_calculate_net_priorities, this]
    simp [decayFactor_eq_min]
  · intro l hl
    rw [hl, sub_self, zero_div]
    norm_num
  · intro l hl
    rw [min_eq_left (by rw [le_div_iff₀ (by norm_num : (0:ℚ) < 30)]; linarith), mul_one]

/-- C8 witness: the adjusted-priority theorem applied to a one-lane
snapshot whose lane was last served exactly at the current time. -/
theorem adjusted_priority_correct_witness :
    (([(LaneDirection.North, emptyLane)].map Prod.fst).Nodup) ∧
    (_apply_recent_green_decay 0 [(LaneDirection.North, emptyLane)]
        (_calculate_net_priorities [(LaneDirection.North, emptyLane)]) =
      some ([(LaneDirection.North, emptyLane)].map fun p => (p.1,
        _calculate_local_traffic_score p.2 * _calculate_downstream_priority p.2 ^ 2 *
          min 1 ((0 - p.2.lastGreenTime) / 30))) ∧
    (∀ l : LaneState, l.lastGreenTime = 0 →
      _calculate_local_traffic_score l * _calculate_downstream_priority l ^ 2 *
        min 1 ((0 - l.lastGreenTime) / 30) = 0) ∧
    (∀ l : LaneState, 30 ≤ 0 - l.lastGreenTime →
      _calculate_local_traffic_score l * _calculate_downstream_priority l ^ 2 *
        min 1 ((0 - l.lastGreenTime) / 30) =
        _calculate_local_traffic_score l * _calculate_downstream_priority l ^ 2)) :=
  ⟨by simp, adjusted_priority_correct 0 [(LaneDirection.North, emptyLane)] (by simp)⟩

/-- Dividing every element of a list by a constant divides its sum. -/
theorem sum_map_div (l : List ℝ) (c : ℝ) :
    (l.map fun e => e / c).sum = l.sum / c := by
  induction l with
  | nil => simp
  | cons x xs ih => simp [ih, add_div]

/-- C3: the softmax over any nonempty priority list returns a strictly
positive probability for every lane — in particular for lanes whose
adjusted priority is 0 — and the probabilities sum exactly to 1 (hence
certainly within the 1e-6 tolerance). -/
theorem softmax_positive_sums_to_one (priorities : List (LaneDirection × ℚ))
    (h : priorities ≠ []) :
    (∀ p ∈ _softmax priorities TEMPERATURE, 0 < p.2) ∧
    ((_softmax priorities TEMPERATURE).map Prod.snd).sum = 1 := by
  unfold _softmax
  set scaled : List ℝ := priorities.map fun p =>
    (((p.2 + 1/1000000) / TEMPERATURE : ℚ) : ℝ) with hscaled
  set m : ℝ := listMax scaled with hm
  set exp_values : List ℝ := scaled.map fun v => Real.exp (v - m) with hexp
  have hpos : ∀ e ∈ exp_values, 0 < e := by
    intro e he
    rw [hexp] at he
    obtain ⟨v, _, hv⟩ := List.mem_map.mp he
    rw [← hv]
    exact Real.exp_pos _
  have hlen : exp_values.length = priorities.length := by
    rw [hexp, hscaled]
    simp
  have hnil : exp_values ≠ [] := by
    intro hn
    apply h
    rwa [← List.length_eq_zero, hlen, List.length_eq_zero] at hn
  have hs : 0 < exp_values.sum := List.sum_pos exp_values hpos hnil
  constructor
  · intro p hp
    have h2 := (List.of_mem_zip hp).2
    obtain ⟨e, he, hv⟩ := List.mem_map.mp h2
    rw [← hv]
    exact div_pos (hpos e he) hs
  · rw [List.map_snd_zip]
    · rw [sum_map_div]
      exact div_self (ne_of_gt hs)
    · simp [hexp, hscaled]

/-- C3 witness: softmax over a four-lane priority list containing
exact zeros. -/
theorem softmax_positive_sums_to_one_witness :
    (([(LaneDirection.North, 0), (LaneDirection.South, 5),
        (LaneDirection.East, 0), (LaneDirection.West, 2)] :
        List (LaneDirection × ℚ)) ≠ []) ∧
    ((∀ p ∈ _softmax [(LaneDirection.North, 0), (LaneDirection.South, 5),
        (LaneDirection.East, 0), (LaneDirection.West, 2)] TEMPERATURE, 0 < p.2) ∧
      ((_softmax [(LaneDirection.North, 0), (LaneDirection.South, 5),
        (LaneDirection.East, 0), (LaneDirection.West, 2)] TEMPERATURE).map
          Prod.snd).sum = 1) :=
  ⟨by simp, softmax_positive_sums_to_one _ (by simp)⟩

/-- On a list split as pre ++ x :: post where the predicate fails on all
of pre and holds at x, find? returns x — the first match in iteration
order. -/
theorem find?_first {α : Type} (f : α → Bool) (pre post : List α) (x : α)
    (hpre : ∀ a ∈ pre, f a = false) (hx : f x = true) :
    (pre ++ x :: post).find? f = some x := by
  induction pre with
  | nil =>
    rw [List.nil_append]
    simp [List.find?, hx]
  | cons a rest ih =>
    have ha := hpre a (List.mem_cons_self a rest)
    rw [List.cons_append]
    simp only [List.find?, ha]
    exact ih fun b hb => hpre b (List.mem_cons_of_mem a hb)

/-- C1: whenever some lane reports an ambulance, decide returns the
emergency decision for the first such lane in iteration order:
duration MAX_GREEN, confidence 1, reason trace with emergency = true,
sentinel localTrafficScore 999 and softmaxProbability 1, regardless of
every other lane and of the random draw. -/
theorem decide_emergency_override
    (sel : List (LaneDirection × ℝ) → Option LaneDirection) (now : ℚ)
    (pre post : List (LaneDirection × LaneState)) (d : LaneDirection)
    (l : LaneState)
    (hpre : ∀ p ∈ pre, p.2.vision.ambulanceDetected = false)
    (hl : l.vision.ambulanceDetected = true) :
    decide sel now (pre ++ (d, l) :: post) =
      some { selectedLane := d
             greenDuration := MAX_GREEN
             decisionConfidence := 1
             reasonTrace :=
               { emergency := true
                 maxWaitViolation := false
                 downstreamPenalty := 0
                 recentGreenDecay := 1
                 softmaxProbability := 1
                 localTrafficScore := 999 }
             timestamp := now } := by
  have hE : _check_emergency (pre ++ (d, l) :: post) = some (d, l) :=
    find?_first _ pre post (d, l) (fun a ha => hpre a ha) hl
  unfold decide
  rw [hE]
  rfl

/-- C1 witness: decide on a two-lane snapshot whose second lane reports
an ambulance. -/
theorem decide_emergency_override_witness :
    (∀ p ∈ [(LaneDirection.North, emptyLane)],
      p.2.vision.ambulanceDetected = false) ∧
    { emptyLane with vision :=
        { emptyLane.vision with ambulanceDetected := true } }.vision.ambulanceDetected
      = true ∧
    decide (fun _ => none) 0
        ([(LaneDirection.North, emptyLane)] ++
          (LaneDirection.South,
            { emptyLane with vision :=
              { emptyLane.vision with ambulanceDetected := true } }) :: []) =
      some { selectedLane := LaneDirection.South
             greenDuration := MAX_GREEN
             decisionConfidence := 1
             reasonTrace :=
               { emergency := true
                 maxWaitViolation := false
                 downstreamPenalty := 0
                 recentGreenDecay := 1
                 softmaxProbability := 1
                 localTrafficScore := 999 }
             timestamp := 0 } :=
  ⟨by simp [emptyLane, emptyVision], rfl,
    decide_emergency_override (fun _ => none) 0 [(LaneDirection.North, emptyLane)]
      [] LaneDirection.South _ (by simp [emptyLane, emptyVision]) rfl⟩

/-- C2: with no ambulance anywhere, the first lane in iteration order
whose waitTime strictly exceeds MAX_WAIT_TIME is forced green with
duration MIN_GREEN, confidence 1 and maxWaitViolation marked in the
reason trace. -/
theorem decide_max_wait_override
    (sel : List (LaneDirection × ℝ) → Option LaneDirection) (now : ℚ)
    (pre post : List (LaneDirection × LaneState)) (d : LaneDirection)
    (l : LaneState)
    (hnoamb : ∀ p ∈ pre ++ (d, l) :: post, p.2.vision.ambulanceDetected = false)
    (hpre : ∀ p ∈ pre, ¬ p.2.waitTime > MAX_WAIT_TIME)
    (hl : l.waitTime > MAX_WAIT_TIME) :
    decide sel now (pre ++ (d, l) :: post) =
      some { selectedLane := d
             greenDuration := MIN_GREEN
             decisionConfidence := 1
             reasonTrace :=
               { emergency := false
                 maxWaitViolation := true
                 downstreamPenalty := 0
                 recentGreenDecay := 1
                 softmaxProbability := 1
                 localTrafficScore := _calculate_local_traffic_score l }
             timestamp := now } := by
  have hE : _check_emergency (pre ++ (d, l) :: post) = none := by
    unfold _check_emergency
    rw [List.find?_eq_none]
    intro p hp
    simp [hnoamb p hp]
  have hW : _check_max_wait (pre ++ (d, l) :: post) = some (d, l) :=
    find?_first _ pre post (d, l)
      (fun a ha => by simp [hpre a ha]) (by simp [hl])
  unfold decide
  rw [hE, hW]
  rfl

/-- C2 witness: decide on a two-lane snapshot whose second lane has
waited 130 s. -/
theorem decide_max_wait_override_witness :
    (∀ p ∈ [(LaneDirection.North, emptyLane)] ++
        (LaneDirection.South, { emptyLane with waitTime := 130 }) :: [],
      p.2.vision.ambulanceDetected = false) ∧
    (∀ p ∈ [(LaneDirection.North, emptyLane)], ¬ p.2.waitTime > MAX_WAIT_TIME) ∧
    ({ emptyLane with waitTime := 130 } : LaneState).waitTime > MAX_WAIT_TIME ∧
    decide (fun _ => none) 0
        ([(LaneDirection.North, emptyLane)] ++
          (LaneDirection.South, { emptyLane with waitTime := 130 }) :: []) =
      some { selectedLane := LaneDirection.South
             greenDuration := MIN_GREEN
             decisionConfidence := 1
             reasonTrace :=
               { emergency := false
                 maxWaitViolation := true
                 downstreamPenalty := 0
                 recentGreenDecay := 1
                 softmaxProbability := 1
                 localTrafficScore :=
                   _calculate_local_traffic_score { emptyLane with waitTime := 130 } }
             timestamp := 0 } :=
  ⟨by simp [emptyLane, emptyVision],
    by norm_num [emptyLane, emptyVision, MAX_WAIT_TIME],
    by norm_num [emptyLane, MAX_WAIT_TIME],
    decide_max_wait_override (fun _ => none) 0 [(LaneDirection.North, emptyLane)]
      [] LaneDirection.South _ (by simp [emptyLane, emptyVision])
      (by norm_num [emptyLane, emptyVision, MAX_WAIT_TIME])
      (by norm_num [emptyLane, MAX_WAIT_TIME])⟩

/-- Lane with two emergency vehicles counted but no ambulance flag. -/
def emergencyCountLane : LaneState :=
  { direction := LaneDirection.West
    vision :=
      { vehicleCountByType :=
          { car := 0, bike := 0, truck := 0, bus := 0, emergency := 2, pedestrians := 0 }
        avgSpeed := 30
        laneOccupancy := 1/2
        ambulanceDetected := false
        rainDetected := false
        confidenceScore := 9/10 }
    downstream := none
    waitTime := 10
    lastGreenTime := 0 }

/-- C10: the emergency override keys on the ambulanceDetected flag
alone: with the flag false everywhere the override does not fire even
when emergency vehicle counts are positive, and each lane's emergency
count enters the ordinary local score only through the weighted sum with
weight 10.0 per vehicle. -/
theorem emergency_override_flag_only (lanes : List (LaneDirection × LaneState))
    (hcount : ∃ p ∈ lanes, 0 < p.2.vision.vehicleCountByType.emergency)
    (hflag : ∀ p ∈ lanes, p.2.vision.ambulanceDetected = false) :
    _check_emergency lanes = none ∧
    ∀ p ∈ lanes, _calculate_local_traffic_score p.2 = localScoreSpec p.2 := by
  constructor
  · unfold _check_emergency
    rw [List.find?_eq_none]
    intro p hp
    simp [hflag p hp]
  · intro p _
    exact local_score_eq_spec p.2

/-- C10 witness: a single-lane snapshot counting two emergency vehicles
with the ambulance flag off. -/
theorem emergency_override_flag_only_witness :
    (∃ p ∈ [(LaneDirection.West, emergencyCountLane)],
      0 < p.2.vision.vehicleCountByType.emergency) ∧
    (∀ p ∈ [(LaneDirection.West, emergencyCountLane)],
      p.2.vision.ambulanceDetected = false) ∧
    (_check_emergency [(LaneDirection.West, emergencyCountLane)] = none ∧
      ∀ p ∈ [(LaneDirection.West, emergencyCountLane)],
        _calculate_local_traffic_score p.2 = localScoreSpec p.2) :=
  ⟨⟨(LaneDirection.West, emergencyCountLane), by simp,
      by norm_num [emergencyCountLane]⟩,
    by simp [emergencyCountLane],
    emergency_override_flag_only [(LaneDirection.West, emergencyCountLane)]
      ⟨(LaneDirection.West, emergencyCountLane), by simp,
        by norm_num [emergencyCountLane]⟩
      (by simp [emergencyCountLane])⟩

/-- Softmax preserves the key list of its input. -/
theorem softmax_keys (priorities : List (LaneDirection × ℚ)) (t : ℚ) :
    (_softmax priorities t).map Prod.fst = priorities.map Prod.fst := by
  simp only [_softmax]
  rw [List.map_fst_zip]
  simp

/-- The recent-green decay step over the engine's own net priorities
succeeds when lane keys are distinct, and preserves the key list. -/
theorem apply_decay_total (now : ℚ) (lanes : List (LaneDirection × LaneState))
    (hnodup : (lanes.map Prod.fst).Nodup) :
    ∃ adjusted,
      _apply_recent_green_decay now lanes (_calculate_net_priorities lanes) =
        some adjusted ∧
      adjusted.map Prod.fst = lanes.map Prod.fst := by
  refine ⟨_, apply_decay_on_image now lanes lanes
    (fun l => _calculate_local_traffic_score l * _calculate_downstream_priority l ^ 2)
    (fun p hp => lookup_of_mem_of_nodup hnodup hp), ?_⟩
  simp [List.map_map]

/-- Validated field ranges of one lane snapshot, as the data contracts
in `models.py` and the spec state them. -/
def ValidLane (l : LaneState) : Prop :=
  0 ≤ l.vision.vehicleCountByType.car ∧
  0 ≤ l.vision.vehicleCountByType.bike ∧
  0 ≤ l.vision.vehicleCountByType.truck ∧
  0 ≤ l.vision.vehicleCountByType.bus ∧
  0 ≤ l.vision.vehicleCountByType.emergency ∧
  0 ≤ l.vision.vehicleCountByType.pedestrians ∧
  0 ≤ l.vision.avgSpeed ∧ l.vision.avgSpeed ≤ 100 ∧
  0 ≤ l.vision.laneOccupancy ∧ l.vision.laneOccupancy ≤ 1 ∧
  0 ≤ l.vision.confidenceScore ∧ l.vision.confidenceScore ≤ 1 ∧
  0 ≤ l.waitTime

/-- C9: on a fully-populated four-lane snapshot with validated field
ranges, every step of the pipeline succeeds: whenever the abstracted
random draw returns one of the offered lanes, decide returns some
decision. -/
theorem decide_total (sel : List (LaneDirection × ℝ) → Option LaneDirection)
    (now : ℚ) (l1 l2 l3 l4 : LaneState)
    (hsel : ∀ ps : List (LaneDirection × ℝ), ps ≠ [] →
      ∃ d, sel ps = some d ∧ d ∈ ps.map Prod.fst)
    (h1 : ValidLane l1) (h2 : ValidLane l2) (h3 : ValidLane l3)
    (h4 : ValidLane l4) :
    ∃ dec, decide sel now
      [(LaneDirection.North, l1), (LaneDirection.South, l2),
       (LaneDirection.East, l3), (LaneDirection.West, l4)] = some dec := by
  set lanes : List (LaneDirection × LaneState) :=
    [(LaneDirection.North, l1), (LaneDirection.South, l2),
     (LaneDirection.East, l3), (LaneDirection.West, l4)] with hlanes
  have hlkeys : lanes.map Prod.fst =
      [LaneDirection.North, LaneDirection.South,
       LaneDirection.East, LaneDirection.West] := by
    rw [hlanes]
    simp
  have hnodup : (lanes.map Prod.fst).Nodup := by
    rw [hlkeys]
    decide
  obtain ⟨adjusted, hadj, hAkeys⟩ := apply_decay_total now lanes hnodup
  have hkeys : (_softmax adjusted TEMPERATURE).map Prod.fst = lanes.map Prod.fst := by
    rw [softmax_keys, hAkeys]
  have hne : _softmax adjusted TEMPERATURE ≠ [] := by
    intro h0
    rw [h0, hlkeys] at hkeys
    simp at hkeys
  obtain ⟨d, hd, hdmem⟩ := hsel _ hne
  rw [hkeys] at hdmem
  obtain ⟨laneState, hlane⟩ :=
    Option.isSome_iff_exists.mp (lookup_isSome_of_mem_keys hdmem)
  have hdp : d ∈ (_softmax adjusted TEMPERATURE).map Prod.fst := by
    rw [hkeys]
    exact hdmem
  obtain ⟨probability, hprob⟩ :=
    Option.isSome_iff_exists.mp (lookup_isSome_of_mem_keys hdp)
  unfold decide
  cases hE : _check_emergency lanes with
  | some p => exact ⟨_, rfl⟩
  | none =>
    cases hW : _check_max_wait lanes with
    | some p => exact ⟨_, rfl⟩
    | none =>
      simp only [hadj, hd, hlane, hprob]
      exact ⟨_, rfl⟩

/-- C9 witness: decide applied to four empty lanes with a head-picking
selector produces a decision. -/
theorem decide_total_witness :
    (∀ ps : List (LaneDirection × ℝ), ps ≠ [] →
      ∃ d, (fun ps : List (LaneDirection × ℝ) => ps.head?.map Prod.fst) ps
          = some d ∧ d ∈ ps.map Prod.fst) ∧
    ValidLane emptyLane ∧
    ∃ dec, decide (fun ps => ps.head?.map Prod.fst) 0
      [(LaneDirection.North, emptyLane), (LaneDirection.South, emptyLane),
       (LaneDirection.East, emptyLane), (LaneDirection.West, emptyLane)] = some dec :=
  have hs : ∀ ps : List (LaneDirection × ℝ), ps ≠ [] →
      ∃ d, (fun ps : List (LaneDirection × ℝ) => ps.head?.map Prod.fst) ps
          = some d ∧ d ∈ ps.map Prod.fst := by
    intro ps hne
    cases ps with
    | nil => exact absurd rfl hne
    | cons p rest => exact ⟨p.1, rfl, by simp⟩
  have hv : ValidLane emptyLane := by
    norm_num [ValidLane, emptyLane, emptyVision]
  ⟨hs, hv, decide_total (fun ps => ps.head?.map Prod.fst) 0
    emptyLane emptyLane emptyLane emptyLane hs hv hv hv hv⟩

end Apex
